import Mathlib

/-!
Verification of the SafePost evaluation pipeline.

The development shallowly embeds the metrics-computation code of the two
scripts `main.py` and `analyze_results.py`:
  * `main.py`'s `calculate_metrics` folds over evaluation records and
    accumulates per-category confusion counts (with inverted polarity for
    the `safe` category), `calculate_precision_recall_f1` derives scores,
    and `print_report` derives per-category accuracy from the run total.
  * `save_results_csv` serialises records to CSV rows.
  * `analyze_results.py`'s `calculate_metrics` recomputes counts and scores
    from (expected, predicted) boolean pairs, and `create_confusion_matrices`
    reconstructs those pairs from the persisted CSV rows.
Python dictionaries with optional keys become structures with `Option`
fields; `dict.get(k, d)` becomes `Option.getD`; float arithmetic on derived
scores is modelled exactly over `ℚ`.
-/

/-- A label mapping, category name → boolean, with every field optional
(a Python dict may lack any key). Used for both ground truth and
predictions. -/
structure LabelSet where
  safe : Option Bool
  emails : Option Bool
  address : Option Bool
  phoneNumbers : Option Bool
  licensePlates : Option Bool
deriving DecidableEq, Repr

/-- The dictionary returned by `analyze_image`: either a normal response
(possibly missing some keys) or a dict containing an `"error"` key.
`error.isSome` models `"error" in actual`. -/
structure ActualResult where
  error : Option String
  safe : Option Bool
  emails : Option Bool
  address : Option Bool
  phoneNumbers : Option Bool
  licensePlates : Option Bool
  message : Option String
  reasoning : Option String
  redactionSuggestions : List String
deriving DecidableEq, Repr

/-- One element of the `results` list of `main.py`:
`(expected, actual, category, image_path)`. -/
structure EvalRecord where
  expected : LabelSet
  actual : ActualResult
  category : String
  imagePath : String
deriving DecidableEq, Repr

/-- A `{"tp": _, "tn": _, "fp": _, "fn": _}` dictionary. -/
structure Counts where
  tp : Nat
  tn : Nat
  fp : Nat
  fn : Nat
deriving DecidableEq, Repr

def Counts.zero : Counts := ⟨0, 0, 0, 0⟩

/-- Pointwise addition of confusion counts (proof infrastructure). -/
def Counts.add (a b : Counts) : Counts :=
  ⟨a.tp + b.tp, a.tn + b.tn, a.fp + b.fp, a.fn + b.fn⟩

/-- The sum tp+tn+fp+fn. -/
def Counts.sum (c : Counts) : Nat := c.tp + c.tn + c.fp + c.fn

/-- Exchange tp with tn and fp with fn (the effect of flipping the
positive class). -/
def Counts.swap (c : Counts) : Counts := ⟨c.tn, c.tp, c.fn, c.fp⟩

/-- The `metrics` dictionary built by `main.py`'s `calculate_metrics`. -/
structure Metrics where
  total : Nat
  safe_accuracy : Counts
  emails : Counts
  address : Counts
  phoneNumbers : Counts
  licensePlates : Counts
deriving DecidableEq, Repr

/-- The safe/unsafe branch of `main.py` lines 93-100: inverted polarity,
`tp` when both expected and actual are `False`. -/
def classifySafe (expectedSafe actualSafe : Bool) (c : Counts) : Counts :=
  if !expectedSafe && !actualSafe then { c with tp := c.tp + 1 }
  else if expectedSafe && actualSafe then { c with tn := c.tn + 1 }
  else if expectedSafe && !actualSafe then { c with fp := c.fp + 1 }
  else if !expectedSafe && actualSafe then { c with fn := c.fn + 1 }
  else c

/-- The per-category branch of `main.py` lines 107-114: standard polarity,
`tp` when both expected and actual are `True`. -/
def classifyCat (expectedVal actualVal : Bool) (c : Counts) : Counts :=
  if expectedVal && actualVal then { c with tp := c.tp + 1 }
  else if !expectedVal && !actualVal then { c with tn := c.tn + 1 }
  else if !expectedVal && actualVal then { c with fp := c.fp + 1 }
  else if expectedVal && !actualVal then { c with fn := c.fn + 1 }
  else c

/-- One iteration of the `for expected, actual, _, _ in results` loop of
`main.py`'s `calculate_metrics`: error-marked records are skipped
(`if "error" in actual: continue`); otherwise the safe pair is
`(expected.get("safe", False), actual.get("safe", True))` and each PII
category pair is `(expected.get(c, False), actual.get(c, False))`. -/
def metricsStep (m : Metrics) (r : EvalRecord) : Metrics :=
  if r.actual.error.isSome then m
  else
    { m with
      safe_accuracy :=
        classifySafe (r.expected.safe.getD false) (r.actual.safe.getD true)
          m.safe_accuracy,
      emails :=
        classifyCat (r.expected.emails.getD false) (r.actual.emails.getD false)
          m.emails,
      address :=
        classifyCat (r.expected.address.getD false) (r.actual.address.getD false)
          m.address,
      phoneNumbers :=
        classifyCat (r.expected.phoneNumbers.getD false)
          (r.actual.phoneNumbers.getD false) m.phoneNumbers,
      licensePlates :=
        classifyCat (r.expected.licensePlates.getD false)
          (r.actual.licensePlates.getD false) m.licensePlates }

/-- `main.py` lines 74-116: `calculate_metrics`. `total` is
`len(results)` (set before the loop, so it counts error records too). -/
def calculate_metrics (results : List EvalRecord) : Metrics :=
  results.foldl metricsStep
    { total := results.length,
      safe_accuracy := Counts.zero, emails := Counts.zero,
      address := Counts.zero, phoneNumbers := Counts.zero,
      licensePlates := Counts.zero }

/-- `main.py` lines 119-124: `calculate_precision_recall_f1`, floats
modelled over ℚ. Returns `(precision, recall, f1)`. -/
def calculate_precision_recall_f1 (tp fp fn : Nat) : ℚ × ℚ × ℚ :=
  let precision : ℚ := if tp + fp > 0 then (tp : ℚ) / ((tp : ℚ) + (fp : ℚ)) else 0
  let recallScore : ℚ := if tp + fn > 0 then (tp : ℚ) / ((tp : ℚ) + (fn : ℚ)) else 0
  let f1 : ℚ :=
    if precision + recallScore > 0 then
      2 * (precision * recallScore) / (precision + recallScore)
    else 0
  (precision, recallScore, f1)

/-- The accuracy figure printed by `print_report` (`main.py` lines 138,
168, 192): `(tp + tn) / total if total > 0 else 0.0`, where `total` is
`metrics["total"]`. -/
def print_report_accuracy (total : Nat) (c : Counts) : ℚ :=
  if total > 0 then ((c.tp : ℚ) + (c.tn : ℚ)) / (total : ℚ) else 0

/-- One CSV data row as written by `save_results_csv` (`main.py` lines
271-293). `none` in an `Option` cell models Python `None`, which the csv
module writes as an empty cell. -/
structure CsvRow where
  imagePath : String
  category : String
  expectedSafe : Bool
  actualSafe : Option Bool
  safeCorrect : Option Bool
  expectedEmails : Bool
  actualEmails : Option Bool
  emailsCorrect : Option Bool
  expectedAddress : Bool
  actualAddress : Option Bool
  addressCorrect : Option Bool
  expectedPhoneNumbers : Bool
  actualPhoneNumbers : Option Bool
  phoneNumbersCorrect : Option Bool
  expectedLicensePlates : Bool
  actualLicensePlates : Option Bool
  licensePlatesCorrect : Option Bool
  message : String
  reasoning : String
  redactionSuggestions : String
  error : String
deriving DecidableEq, Repr

/-- The row written for one record by `save_results_csv`. -/
def csvRowOf (r : EvalRecord) : CsvRow :=
  let isErr := r.actual.error.isSome
  let expectedSafe := r.expected.safe.getD false
  { imagePath := r.imagePath
    category := r.category
    expectedSafe := expectedSafe
    actualSafe := if isErr then none else r.actual.safe
    safeCorrect :=
      if isErr then none else some (expectedSafe == r.actual.safe.getD true)
    expectedEmails := r.expected.emails.getD false
    actualEmails := if isErr then none else r.actual.emails
    emailsCorrect :=
      if isErr then none
      else some (r.expected.emails.getD false == r.actual.emails.getD false)
    expectedAddress := r.expected.address.getD false
    actualAddress := if isErr then none else r.actual.address
    addressCorrect :=
      if isErr then none
      else some (r.expected.address.getD false == r.actual.address.getD false)
    expectedPhoneNumbers := r.expected.phoneNumbers.getD false
    actualPhoneNumbers := if isErr then none else r.actual.phoneNumbers
    phoneNumbersCorrect :=
      if isErr then none
      else some (r.expected.phoneNumbers.getD false ==
        r.actual.phoneNumbers.getD false)
    expectedLicensePlates := r.expected.licensePlates.getD false
    actualLicensePlates := if isErr then none else r.actual.licensePlates
    licensePlatesCorrect :=
      if isErr then none
      else some (r.expected.licensePlates.getD false ==
        r.actual.licensePlates.getD false)
    message := if isErr then "" else r.actual.message.getD ""
    reasoning := if isErr then "" else r.actual.reasoning.getD ""
    redactionSuggestions := String.intercalate "; " r.actual.redactionSuggestions
    error := if isErr then r.actual.error.getD "" else "" }

/-- `main.py` lines 223-295: the data rows of `save_results_csv` (the
header row and file I/O are serialisation mechanics). -/
def save_results_csv (results : List EvalRecord) : List CsvRow :=
  results.map csvRowOf

/-- `analyze_results.py` lines 40-44: the five derived-score formulas,
floats modelled over ℚ. -/
def accuracy_of (tp tn fp fn : Nat) : ℚ :=
  if tp + tn + fp + fn > 0 then
    ((tp : ℚ) + (tn : ℚ)) / ((tp : ℚ) + (tn : ℚ) + (fp : ℚ) + (fn : ℚ))
  else 0

def precision_of (tp fp : Nat) : ℚ :=
  if tp + fp > 0 then (tp : ℚ) / ((tp : ℚ) + (fp : ℚ)) else 0

def recall_of (tp fn : Nat) : ℚ :=
  if tp + fn > 0 then (tp : ℚ) / ((tp : ℚ) + (fn : ℚ)) else 0

def f1_of (tp fp fn : Nat) : ℚ :=
  if precision_of tp fp + recall_of tp fn > 0 then
    2 * (precision_of tp fp * recall_of tp fn) /
      (precision_of tp fp + recall_of tp fn)
  else 0

def specificity_of (tn fp : Nat) : ℚ :=
  if tn + fp > 0 then (tn : ℚ) / ((tn : ℚ) + (fp : ℚ)) else 0

/-- `analyze_results.py` lines 32-38: the manual confusion-counts
computation of `calculate_metrics` over the `(y_true, y_pred)` series,
standard polarity (`tp` when both are `True`). -/
def ar_counts (ys : List (Bool × Bool)) : Counts :=
  { tn := (ys.filter (fun p => !p.1 && !p.2)).length
    fp := (ys.filter (fun p => !p.1 && p.2)).length
    fn := (ys.filter (fun p => p.1 && !p.2)).length
    tp := (ys.filter (fun p => p.1 && p.2)).length }

/-- The metrics dictionary returned by `analyze_results.py`'s
`calculate_metrics` (lines 28-57), minus the numpy matrix object, which
holds the same four counts in a fixed 2x2 layout. -/
structure ArMetrics where
  tp : Nat
  tn : Nat
  fp : Nat
  fn : Nat
  accuracy : ℚ
  precision : ℚ
  recallScore : ℚ
  f1 : ℚ
  specificity : ℚ
deriving DecidableEq, Repr

/-- `analyze_results.py` lines 28-57: `calculate_metrics` on a series of
`(y_true, y_pred)` pairs. -/
def ar_calculate_metrics (ys : List (Bool × Bool)) : ArMetrics :=
  let c := ar_counts ys
  { tp := c.tp, tn := c.tn, fp := c.fp, fn := c.fn
    accuracy := accuracy_of c.tp c.tn c.fp c.fn
    precision := precision_of c.tp c.fp
    recallScore := recall_of c.tp c.fn
    f1 := f1_of c.tp c.fp c.fn
    specificity := specificity_of c.tn c.fp }

/-- The four counts held by an `ArMetrics` dictionary. -/
def ArMetrics.counts (a : ArMetrics) : Counts := ⟨a.tp, a.tn, a.fp, a.fn⟩

/-- The `all_metrics` dictionary built by `create_confusion_matrices`:
one `ArMetrics` per category. -/
structure AllMetrics where
  safeUnsafe : ArMetrics
  emails : ArMetrics
  address : ArMetrics
  phoneNumbers : ArMetrics
  licensePlates : ArMetrics
deriving DecidableEq, Repr

/-- Reading one boolean cell of the cleaned frame after
`df_clean[col].astype(bool)`: an empty cell (Python `None`) was parsed by
pandas as NaN, and `astype(bool)` maps NaN to `True`; a written boolean
is kept. -/
def csvCellBool (cell : Option Bool) : Bool := cell.getD true

/-- `analyze_results.py` lines 102-133: `create_confusion_matrices`.
Rows are kept when the `Error` cell is empty (pandas reads an empty cell
as NaN, and the filter is `df["Error"].isna()`); every `Expected`/`Actual`
column is then converted with `astype(bool)` and fed per category to
`ar_calculate_metrics`. -/
def create_confusion_matrices (rows : List CsvRow) : AllMetrics :=
  let clean := rows.filter (fun row => row.error == "")
  { safeUnsafe := ar_calculate_metrics
      (clean.map (fun row => (row.expectedSafe, csvCellBool row.actualSafe)))
    emails := ar_calculate_metrics
      (clean.map (fun row => (row.expectedEmails, csvCellBool row.actualEmails)))
    address := ar_calculate_metrics
      (clean.map (fun row => (row.expectedAddress, csvCellBool row.actualAddress)))
    phoneNumbers := ar_calculate_metrics
      (clean.map (fun row =>
        (row.expectedPhoneNumbers, csvCellBool row.actualPhoneNumbers)))
    licensePlates := ar_calculate_metrics
      (clean.map (fun row =>
        (row.expectedLicensePlates, csvCellBool row.actualLicensePlates))) }

/-! ### Proof infrastructure -/

/-- The contribution of a single `(expected, actual)` pair to a standard
polarity confusion matrix: exactly one of the four cells is 1. -/
def unitOf (e a : Bool) : Counts :=
  { tp := if e && a then 1 else 0
    tn := if !e && !a then 1 else 0
    fp := if !e && a then 1 else 0
    fn := if e && !a then 1 else 0 }

/-- `True` when the record is not error-marked. -/
def nonErr (r : EvalRecord) : Bool := !r.actual.error.isSome

/-- The `(expected, actual)` booleans `main.py` forms for the `safe`
category: `(expected.get("safe", False), actual.get("safe", True))`. -/
def safePair (r : EvalRecord) : Bool × Bool :=
  (r.expected.safe.getD false, r.actual.safe.getD true)

/-- Pair formed for `emails`. -/
def emailsPair (r : EvalRecord) : Bool × Bool :=
  (r.expected.emails.getD false, r.actual.emails.getD false)

/-- Pair formed for `address`. -/
def addressPair (r : EvalRecord) : Bool × Bool :=
  (r.expected.address.getD false, r.actual.address.getD false)

/-- Pair formed for `phoneNumbers`. -/
def phonePair (r : EvalRecord) : Bool × Bool :=
  (r.expected.phoneNumbers.getD false, r.actual.phoneNumbers.getD false)

/-- Pair formed for `licensePlates`. -/
def platesPair (r : EvalRecord) : Bool × Bool :=
  (r.expected.licensePlates.getD false, r.actual.licensePlates.getD false)

/-- Negate both components (polarity flip). -/
def negPair (p : Bool × Bool) : Bool × Bool := (!p.1, !p.2)

/-- The per-category pair series fed by `main.py`'s loop: error-marked
records skipped, then one pair per record. -/
def mainPairs (f : EvalRecord → Bool × Bool) (l : List EvalRecord) :
    List (Bool × Bool) :=
  (l.filter nonErr).map f

/-- Replace each optional category field of a response by the boolean
`main.py`'s accumulator actually reads for it: an absent `safe` field
becomes `True` (`actual.get("safe", True)`), an absent PII field becomes
`False` (`actual.get(category, False)`). The error marker is untouched. -/
def fillDefaults (a : ActualResult) : ActualResult :=
  { a with
    safe := some (a.safe.getD true)
    emails := some (a.emails.getD false)
    address := some (a.address.getD false)
    phoneNumbers := some (a.phoneNumbers.getD false)
    licensePlates := some (a.licensePlates.getD false) }

/-- A ground-truth label set with every category `False` (the corpus
invariant: `safe` is always expected `False`). -/
def lsAllFalse : LabelSet :=
  ⟨some false, some false, some false, some false, some false⟩

/-- A fully populated non-error response with every category `False`. -/
def actAllFalse : ActualResult :=
  ⟨none, some false, some false, some false, some false, some false,
    none, none, []⟩

/-- A non-error record whose response agrees with the ground truth on
every category (all `False`). -/
def r0 : EvalRecord := ⟨lsAllFalse, actAllFalse, "Address", "img0.png"⟩

/-- An error-marked record (the analyze call failed). -/
def rErr : EvalRecord :=
  ⟨lsAllFalse, ⟨some "timeout", none, none, none, none, none, none, none, []⟩,
    "Address", "img1.png"⟩

/-- A non-error record for the `emails` folder, predicted correctly
(`emails` expected and detected, image flagged unsafe). -/
def rEmail : EvalRecord :=
  ⟨⟨some false, some true, some false, some false, some false⟩,
    ⟨none, some false, some true, some false, some false, some false,
      none, none, []⟩,
    "Email", "img2.png"⟩

/-- A non-error response whose `safe` field is absent; all other
categories present and `False`. -/
def rNoSafe : EvalRecord :=
  ⟨lsAllFalse,
    ⟨none, none, some false, some false, some false, some false,
      none, none, []⟩,
    "Address", "img3.png"⟩

/-- `rNoSafe` with the absent `safe` field filled in as `False`. -/
def rSafeFalse : EvalRecord :=
  ⟨lsAllFalse,
    ⟨none, some false, some false, some false, some false, some false,
      none, none, []⟩,
    "Address", "img3.png"⟩

theorem Counts.add_assoc (a b c : Counts) :
    (a.add b).add c = a.add (b.add c) := by
  simp [Counts.add, Nat.add_assoc]

theorem Counts.sum_add (a b : Counts) :
    (a.add b).sum = a.sum + b.sum := by
  simp [Counts.sum, Counts.add]; omega

theorem Counts.swap_add (a b : Counts) :
    (a.add b).swap = a.swap.add b.swap := by
  simp [Counts.add, Counts.swap]

theorem Counts.swap_swap (c : Counts) : c.swap.swap = c := rfl

theorem unitOf_sum (e a : Bool) : (unitOf e a).sum = 1 := by
  cases e <;> cases a <;> rfl

theorem unitOf_not (e a : Bool) : unitOf (!e) (!a) = (unitOf e a).swap := by
  cases e <;> cases a <;> rfl

theorem classifySafe_eq (e a : Bool) (c : Counts) :
    classifySafe e a c = c.add (unitOf (!e) (!a)) := by
  cases e <;> cases a <;> simp [classifySafe, unitOf, Counts.add]

theorem classifyCat_eq (e a : Bool) (c : Counts) :
    classifyCat e a c = c.add (unitOf e a) := by
  cases e <;> cases a <;> simp [classifyCat, unitOf, Counts.add]

theorem ar_counts_nil : ar_counts [] = Counts.zero := rfl

theorem ar_counts_cons (p : Bool × Bool) (ps : List (Bool × Bool)) :
    ar_counts (p :: ps) = (unitOf p.1 p.2).add (ar_counts ps) := by
  obtain ⟨e, a⟩ := p
  cases e <;> cases a <;>
    simp [ar_counts, unitOf, Counts.add, List.filter_cons, Nat.add_comm]

theorem ar_counts_sum (ps : List (Bool × Bool)) :
    (ar_counts ps).sum = ps.length := by
  induction ps with
  | nil => rfl
  | cons p ps ih =>
    rw [ar_counts_cons, Counts.sum_add, unitOf_sum, ih]
    simp [Nat.add_comm]

theorem ar_counts_map_neg (ps : List (Bool × Bool)) :
    ar_counts (ps.map negPair) = (ar_counts ps).swap := by
  induction ps with
  | nil => rfl
  | cons p ps ih =>
    simp [List.map_cons, ar_counts_cons, ih, negPair, unitOf_not,
      Counts.swap_add]

/-- Characterisation of `main.py`'s accumulation loop: starting from any
`metrics` state, the loop adds, per category, the standard-polarity counts
of its pair series, with the `safe` series negated (inverted polarity). -/
theorem foldl_metricsStep (l : List EvalRecord) (m : Metrics) :
    List.foldl metricsStep m l =
      { total := m.total
        safe_accuracy :=
          m.safe_accuracy.add
            (ar_counts (mainPairs (fun r => negPair (safePair r)) l))
        emails := m.emails.add (ar_counts (mainPairs emailsPair l))
        address := m.address.add (ar_counts (mainPairs addressPair l))
        phoneNumbers :=
          m.phoneNumbers.add (ar_counts (mainPairs phonePair l))
        licensePlates :=
          m.licensePlates.add (ar_counts (mainPairs platesPair l)) } := by
  induction l generalizing m with
  | nil => simp [mainPairs, ar_counts, Counts.add]
  | cons r l ih =>
    rw [List.foldl_cons, ih]
    cases he : r.actual.error with
    | some s =>
      simp [metricsStep, he, mainPairs, nonErr, List.filter_cons]
    | none =>
      simp only [metricsStep, he, Option.isSome_none, Bool.false_eq_true,
        if_false, mainPairs, nonErr, List.filter_cons, Bool.not_false,
        if_true, List.map_cons, ar_counts_cons, classifySafe_eq,
        classifyCat_eq, Counts.add_assoc, safePair, emailsPair, addressPair,
        phonePair, platesPair, negPair]

theorem Counts.add_zero (c : Counts) : c.add Counts.zero = c := by
  simp [Counts.add, Counts.zero]

/-- `main.py`'s `calculate_metrics`, in closed form: the total is the
full record length; each category holds the standard-polarity counts of
its pair series over the non-error records, with the safe series fed
through a polarity flip. -/
theorem calculate_metrics_eq (l : List EvalRecord) :
    calculate_metrics l =
      { total := l.length
        safe_accuracy :=
          ar_counts (mainPairs (fun r => negPair (safePair r)) l)
        emails := ar_counts (mainPairs emailsPair l)
        address := ar_counts (mainPairs addressPair l)
        phoneNumbers := ar_counts (mainPairs phonePair l)
        licensePlates := ar_counts (mainPairs platesPair l) } := by
  rw [calculate_metrics, foldl_metricsStep]
  simp [Counts.add, Counts.zero]

theorem ar_counts_singleton (p : Bool × Bool) :
    ar_counts [p] = unitOf p.1 p.2 := by
  rw [ar_counts_cons, ar_counts_nil, Counts.add_zero]

theorem unit_safe_shape (e a : Bool) :
    unitOf (!e) (!a) =
      { tp := if e = false ∧ a = false then 1 else 0
        tn := if e = true ∧ a = true then 1 else 0
        fp := if e = true ∧ a = false then 1 else 0
        fn := if e = false ∧ a = true then 1 else 0 } := by
  cases e <;> cases a <;> rfl

theorem unit_cat_shape (e a : Bool) :
    unitOf e a =
      { tp := if e = true ∧ a = true then 1 else 0
        tn := if e = false ∧ a = false then 1 else 0
        fp := if e = false ∧ a = true then 1 else 0
        fn := if e = true ∧ a = false then 1 else 0 } := by
  cases e <;> cases a <;> rfl

theorem ar_calculate_metrics_counts (ys : List (Bool × Bool)) :
    (ar_calculate_metrics ys).counts = ar_counts ys := rfl

/-- When the count sum equals the reporting total, the `print_report`
accuracy agrees with the four-count accuracy formula. -/
theorem report_accuracy_eq_accuracy_of (c : Counts) (total : Nat)
    (h : c.sum = total) :
    print_report_accuracy total c = accuracy_of c.tp c.tn c.fp c.fn := by
  subst h
  by_cases hp : 0 < c.tp + c.tn + c.fp + c.fn
  · simp only [print_report_accuracy, accuracy_of, Counts.sum, hp, if_pos]
    push_cast
    ring_nf
  · simp [print_report_accuracy, accuracy_of, Counts.sum, hp]

/-- C3: for every input record list and every category, the four
confusion counts produced by `calculate_metrics` sum to the number of
non-error records, regardless of class balance (the classification rule
is a case-complete partition of boolean pairs). -/
theorem C3_counts_sum_to_nonerror (l : List EvalRecord) :
    (calculate_metrics l).safe_accuracy.sum = (l.filter nonErr).length ∧
    (calculate_metrics l).emails.sum = (l.filter nonErr).length ∧
    (calculate_metrics l).address.sum = (l.filter nonErr).length ∧
    (calculate_metrics l).phoneNumbers.sum = (l.filter nonErr).length ∧
    (calculate_metrics l).licensePlates.sum = (l.filter nonErr).length := by
  rw [calculate_metrics_eq]
  simp [ar_counts_sum, mainPairs]

/-- C10: every non-error record contributes exactly one classified pair
to each of the five per-category matrices, so all five have the same
tp+tn+fp+fn total, equal to the number of non-error records of the whole
run (no matrix is restricted to records of a matching source folder). -/
theorem C10_matrices_share_total (l : List EvalRecord) :
    (calculate_metrics l).emails.sum = (calculate_metrics l).safe_accuracy.sum ∧
    (calculate_metrics l).address.sum = (calculate_metrics l).safe_accuracy.sum ∧
    (calculate_metrics l).phoneNumbers.sum =
      (calculate_metrics l).safe_accuracy.sum ∧
    (calculate_metrics l).licensePlates.sum =
      (calculate_metrics l).safe_accuracy.sum ∧
    (calculate_metrics l).safe_accuracy.sum = (l.filter nonErr).length := by
  rw [calculate_metrics_eq]
  simp [ar_counts_sum, mainPairs]

/-- C4: a record whose actual value carries an error marker contributes
to none of the five categories' counts (removing it changes no count),
yet it is counted in `calculate_metrics`' total. -/
theorem C4_error_record_excluded (l1 l2 : List EvalRecord) (r : EvalRecord)
    (h : r.actual.error.isSome = true) :
    (calculate_metrics (l1 ++ r :: l2)).total = (l1 ++ l2).length + 1 ∧
    (calculate_metrics (l1 ++ r :: l2)).safe_accuracy =
      (calculate_metrics (l1 ++ l2)).safe_accuracy ∧
    (calculate_metrics (l1 ++ r :: l2)).emails =
      (calculate_metrics (l1 ++ l2)).emails ∧
    (calculate_metrics (l1 ++ r :: l2)).address =
      (calculate_metrics (l1 ++ l2)).address ∧
    (calculate_metrics (l1 ++ r :: l2)).phoneNumbers =
      (calculate_metrics (l1 ++ l2)).phoneNumbers ∧
    (calculate_metrics (l1 ++ r :: l2)).licensePlates =
      (calculate_metrics (l1 ++ l2)).licensePlates := by
  have hf : nonErr r = false := by simp [nonErr, h]
  rw [calculate_metrics_eq, calculate_metrics_eq]
  refine ⟨?_, ?_, ?_, ?_, ?_, ?_⟩ <;>
    simp [mainPairs, List.filter_append, List.filter_cons, hf,
      List.length_append]
  omega

/-- Witness for C4 at a concrete error-marked record. -/
theorem C4_error_record_excluded_witness :
    rErr.actual.error.isSome = true ∧
    ((calculate_metrics ([] ++ rErr :: [rEmail])).total =
        ([] ++ [rEmail]).length + 1 ∧
      (calculate_metrics ([] ++ rErr :: [rEmail])).safe_accuracy =
        (calculate_metrics ([] ++ [rEmail])).safe_accuracy ∧
      (calculate_metrics ([] ++ rErr :: [rEmail])).emails =
        (calculate_metrics ([] ++ [rEmail])).emails ∧
      (calculate_metrics ([] ++ rErr :: [rEmail])).address =
        (calculate_metrics ([] ++ [rEmail])).address ∧
      (calculate_metrics ([] ++ rErr :: [rEmail])).phoneNumbers =
        (calculate_metrics ([] ++ [rEmail])).phoneNumbers ∧
      (calculate_metrics ([] ++ rErr :: [rEmail])).licensePlates =
        (calculate_metrics ([] ++ [rEmail])).licensePlates) :=
  ⟨by decide, C4_error_record_excluded [] [rEmail] rErr (by decide)⟩

/-- C9: on the degenerate input of five identical records, all expected
`safe=False` and predicted `safe=False`, `calculate_metrics` yields the
full 2x2 safe matrix tp=5, tn=fp=fn=0 (inverted polarity), with derived
accuracy, precision and recall all 1; the chart generator's accumulator
also keeps the fixed four-cell layout on the same degenerate series. -/
theorem C9_degenerate_all_negative :
    (calculate_metrics (List.replicate 5 r0)).safe_accuracy =
      ⟨5, 0, 0, 0⟩ ∧
    print_report_accuracy (calculate_metrics (List.replicate 5 r0)).total
      (calculate_metrics (List.replicate 5 r0)).safe_accuracy = 1 ∧
    calculate_precision_recall_f1
      (calculate_metrics (List.replicate 5 r0)).safe_accuracy.tp
      (calculate_metrics (List.replicate 5 r0)).safe_accuracy.fp
      (calculate_metrics (List.replicate 5 r0)).safe_accuracy.fn =
      (1, 1, 1) ∧
    (ar_calculate_metrics (List.replicate 5 (false, false))).counts =
      ⟨0, 5, 0, 0⟩ ∧
    (ar_calculate_metrics (List.replicate 5 (false, false))).counts.sum = 5 := by
  have hc : (calculate_metrics (List.replicate 5 r0)).safe_accuracy =
      ⟨5, 0, 0, 0⟩ := by decide
  have ht : (calculate_metrics (List.replicate 5 r0)).total = 5 := by decide
  refine ⟨hc, ?_, ?_, by decide, by decide⟩
  · rw [ht, hc]
    norm_num [print_report_accuracy]
  · rw [hc]
    norm_num [calculate_precision_recall_f1, Prod.ext_iff]

/-- C5: for a non-error record, the safe category is classified with
inverted polarity (false/false is tp, true/true is tn, true/false is fp,
false/true is fn on the (expected, actual) safe pair), while each PII
category uses standard polarity (true/true is tp). -/
theorem C5_safe_polarity_inverted (r : EvalRecord)
    (h : r.actual.error = none) :
    (calculate_metrics [r]).safe_accuracy =
      { tp := if (safePair r).1 = false ∧ (safePair r).2 = false then 1 else 0
        tn := if (safePair r).1 = true ∧ (safePair r).2 = true then 1 else 0
        fp := if (safePair r).1 = true ∧ (safePair r).2 = false then 1 else 0
        fn := if (safePair r).1 = false ∧ (safePair r).2 = true then 1 else 0 } ∧
    (calculate_metrics [r]).emails =
      { tp := if (emailsPair r).1 = true ∧ (emailsPair r).2 = true then 1 else 0
        tn := if (emailsPair r).1 = false ∧ (emailsPair r).2 = false then 1 else 0
        fp := if (emailsPair r).1 = false ∧ (emailsPair r).2 = true then 1 else 0
        fn := if (emailsPair r).1 = true ∧ (emailsPair r).2 = false then 1 else 0 } ∧
    (calculate_metrics [r]).address =
      { tp := if (addressPair r).1 = true ∧ (addressPair r).2 = true then 1 else 0
        tn := if (addressPair r).1 = false ∧ (addressPair r).2 = false then 1 else 0
        fp := if (addressPair r).1 = false ∧ (addressPair r).2 = true then 1 else 0
        fn := if (addressPair r).1 = true ∧ (addressPair r).2 = false then 1 else 0 } ∧
    (calculate_metrics [r]).phoneNumbers =
      { tp := if (phonePair r).1 = true ∧ (phonePair r).2 = true then 1 else 0
        tn := if (phonePair r).1 = false ∧ (phonePair r).2 = false then 1 else 0
        fp := if (phonePair r).1 = false ∧ (phonePair r).2 = true then 1 else 0
        fn := if (phonePair r).1 = true ∧ (phonePair r).2 = false then 1 else 0 } ∧
    (calculate_metrics [r]).licensePlates =
      { tp := if (platesPair r).1 = true ∧ (platesPair r).2 = true then 1 else 0
        tn := if (platesPair r).1 = false ∧ (platesPair r).2 = false then 1 else 0
        fp := if (platesPair r).1 = false ∧ (platesPair r).2 = true then 1 else 0
        fn := if (platesPair r).1 = true ∧ (platesPair r).2 = false then 1 else 0 } := by
  have hr : nonErr r = true := by simp [nonErr, h]
  rw [calculate_metrics_eq]
  simp only [mainPairs, List.filter_cons, hr, if_true, List.filter_nil,
    List.map_cons, List.map_nil, ar_counts_singleton, negPair]
  exact ⟨unit_safe_shape (safePair r).1 (safePair r).2,
    unit_cat_shape (emailsPair r).1 (emailsPair r).2,
    unit_cat_shape (addressPair r).1 (addressPair r).2,
    unit_cat_shape (phonePair r).1 (phonePair r).2,
    unit_cat_shape (platesPair r).1 (platesPair r).2⟩

/-- Witness for C5 at the concrete record `rEmail`. -/
theorem C5_safe_polarity_inverted_witness :
    rEmail.actual.error = none ∧
    (calculate_metrics [rEmail]).safe_accuracy = ⟨1, 0, 0, 0⟩ ∧
    (calculate_metrics [rEmail]).emails = ⟨1, 0, 0, 0⟩ ∧
    (calculate_metrics [rEmail]).address = ⟨0, 1, 0, 0⟩ := by
  have h := C5_safe_polarity_inverted rEmail rfl
  exact ⟨rfl, by rw [h.1]; decide, by rw [h.2.1]; decide, by rw [h.2.2.1]; decide⟩

theorem f1_formula_zero (p r : ℚ) (h : p = 0 ∨ r = 0) :
    (if p + r > 0 then 2 * (p * r) / (p + r) else 0) = 0 := by
  rcases h with h | h <;> subst h <;> split <;> simp

theorem f1_formula_one (p r : ℚ) (hp : p = 1) (hr : r = 1) :
    (if p + r > 0 then 2 * (p * r) / (p + r) else 0) = 1 := by
  subst hp
  subst hr
  norm_num

/-- C7: the f1 score of `calculate_precision_recall_f1` is 0 whenever
precision or recall is 0, and is 1 whenever precision and recall are
both 1. -/
theorem C7_f1_extremes (tp fp fn : Nat) :
    ((calculate_precision_recall_f1 tp fp fn).1 = 0 ∨
        (calculate_precision_recall_f1 tp fp fn).2.1 = 0 →
      (calculate_precision_recall_f1 tp fp fn).2.2 = 0) ∧
    ((calculate_precision_recall_f1 tp fp fn).1 = 1 ∧
        (calculate_precision_recall_f1 tp fp fn).2.1 = 1 →
      (calculate_precision_recall_f1 tp fp fn).2.2 = 1) := by
  simp only [calculate_precision_recall_f1]
  exact ⟨fun h => f1_formula_zero _ _ h, fun h => f1_formula_one _ _ h.1 h.2⟩

/-- Witness for C7: at (tp, fp, fn) = (0, 1, 0) precision is 0 and f1 is
0; at (1, 0, 0) precision and recall are 1 and f1 is 1. -/
theorem C7_f1_extremes_witness :
    (calculate_precision_recall_f1 0 1 0).2.2 = 0 ∧
    (calculate_precision_recall_f1 1 0 0).2.2 = 1 :=
  ⟨(C7_f1_extremes 0 1 0).1
      (Or.inl (by norm_num [calculate_precision_recall_f1])),
    (C7_f1_extremes 1 0 0).2
      ⟨by norm_num [calculate_precision_recall_f1],
        by norm_num [calculate_precision_recall_f1]⟩⟩

theorem mainPairs_map (g : EvalRecord → EvalRecord)
    (f : EvalRecord → Bool × Bool) (hg : ∀ r, nonErr (g r) = nonErr r)
    (l : List EvalRecord) :
    mainPairs f (l.map g) = mainPairs (fun r => f (g r)) l := by
  induction l with
  | nil => rfl
  | cons r l ih =>
    unfold mainPairs at ih ⊢
    rw [List.map_cons, List.filter_cons, List.filter_cons, hg r]
    cases hn : nonErr r
    · simpa using ih
    · simpa using ih

/-- C8 (amended): replacing every absent `safe` field by `True` and every
absent PII category field by `False` leaves `calculate_metrics` unchanged
on any record list — those are the defaults the accumulator reads for
absent fields (`actual.get("safe", True)`, `actual.get(category, False)`),
so only the absent-`safe`-is-`True` part differs from the claim. -/
theorem C8_absent_fields_defaulted (l : List EvalRecord) :
    calculate_metrics
        (l.map (fun r => { r with actual := fillDefaults r.actual })) =
      calculate_metrics l := by
  have hg : ∀ r : EvalRecord,
      nonErr { r with actual := fillDefaults r.actual } = nonErr r := by
    intro r
    simp [nonErr, fillDefaults]
  have hsafe : ∀ r : EvalRecord,
      safePair { r with actual := fillDefaults r.actual } = safePair r := by
    intro r
    simp [safePair, fillDefaults]
  have hemails : ∀ r : EvalRecord,
      emailsPair { r with actual := fillDefaults r.actual } = emailsPair r := by
    intro r
    simp [emailsPair, fillDefaults]
  have haddress : ∀ r : EvalRecord,
      addressPair { r with actual := fillDefaults r.actual } =
        addressPair r := by
    intro r
    simp [addressPair, fillDefaults]
  have hphone : ∀ r : EvalRecord,
      phonePair { r with actual := fillDefaults r.actual } = phonePair r := by
    intro r
    simp [phonePair, fillDefaults]
  have hplates : ∀ r : EvalRecord,
      platesPair { r with actual := fillDefaults r.actual } = platesPair r := by
    intro r
    simp [platesPair, fillDefaults]
  rw [calculate_metrics_eq, calculate_metrics_eq]
  simp only [mainPairs_map _ _ hg, hsafe, hemails, haddress, hphone, hplates,
    List.length_map]

/-- Counterexample to C8 as stated: a non-error response whose `safe`
field is absent is not classified like one whose `safe` field is
`False` — the absent field is read as `True` instead. -/
theorem C8_counterexample_absent_safe :
    calculate_metrics [rNoSafe] ≠ calculate_metrics [rSafeFalse] := by
  decide

theorem accuracy_of_bounds (tp tn fp fn : Nat) :
    0 ≤ accuracy_of tp tn fp fn ∧ accuracy_of tp tn fp fn ≤ 1 := by
  unfold accuracy_of
  split
  · next h =>
    have hb : (0 : ℚ) < (tp : ℚ) + (tn : ℚ) + (fp : ℚ) + (fn : ℚ) := by
      exact_mod_cast h
    have hfp : (0 : ℚ) ≤ (fp : ℚ) := by positivity
    have hfn : (0 : ℚ) ≤ (fn : ℚ) := by positivity
    exact ⟨div_nonneg (by positivity) hb.le,
      (div_le_one hb).mpr (by linarith)⟩
  · norm_num

theorem precision_of_bounds (tp fp : Nat) :
    0 ≤ precision_of tp fp ∧ precision_of tp fp ≤ 1 := by
  unfold precision_of
  split
  · next h =>
    have hb : (0 : ℚ) < (tp : ℚ) + (fp : ℚ) := by exact_mod_cast h
    have hfp : (0 : ℚ) ≤ (fp : ℚ) := by positivity
    exact ⟨div_nonneg (by positivity) hb.le,
      (div_le_one hb).mpr (by linarith)⟩
  · norm_num

theorem recall_of_bounds (tp fn : Nat) :
    0 ≤ recall_of tp fn ∧ recall_of tp fn ≤ 1 := by
  unfold recall_of
  split
  · next h =>
    have hb : (0 : ℚ) < (tp : ℚ) + (fn : ℚ) := by exact_mod_cast h
    have hfn : (0 : ℚ) ≤ (fn : ℚ) := by positivity
    exact ⟨div_nonneg (by positivity) hb.le,
      (div_le_one hb).mpr (by linarith)⟩
  · norm_num

theorem specificity_of_bounds (tn fp : Nat) :
    0 ≤ specificity_of tn fp ∧ specificity_of tn fp ≤ 1 := by
  unfold specificity_of
  split
  · next h =>
    have hb : (0 : ℚ) < (tn : ℚ) + (fp : ℚ) := by exact_mod_cast h
    have hfp : (0 : ℚ) ≤ (fp : ℚ) := by positivity
    exact ⟨div_nonneg (by positivity) hb.le,
      (div_le_one hb).mpr (by linarith)⟩
  · norm_num

theorem f1_of_bounds (tp fp fn : Nat) :
    0 ≤ f1_of tp fp fn ∧ f1_of tp fp fn ≤ 1 := by
  obtain ⟨hp0, hp1⟩ := precision_of_bounds tp fp
  obtain ⟨hr0, hr1⟩ := recall_of_bounds tp fn
  unfold f1_of
  split
  · next h =>
    refine ⟨div_nonneg ?_ (by linarith), ?_⟩
    · nlinarith [mul_nonneg hp0 hr0]
    · rw [div_le_one h]
      nlinarith [mul_nonneg hp0 (sub_nonneg.mpr hr1),
        mul_nonneg hr0 (sub_nonneg.mpr hp1)]
  · norm_num

/-- C6 (amended): each of the five derived scores lies in [0,1], and each
is 0 when its defining denominator is 0; the converse direction of the
claim fails (see the counterexample), since a score is also 0 whenever
its numerator is 0 with a positive denominator. -/
theorem C6_scores_bounded (tp tn fp fn : Nat) :
    (0 ≤ accuracy_of tp tn fp fn ∧ accuracy_of tp tn fp fn ≤ 1) ∧
    (0 ≤ precision_of tp fp ∧ precision_of tp fp ≤ 1) ∧
    (0 ≤ recall_of tp fn ∧ recall_of tp fn ≤ 1) ∧
    (0 ≤ f1_of tp fp fn ∧ f1_of tp fp fn ≤ 1) ∧
    (0 ≤ specificity_of tn fp ∧ specificity_of tn fp ≤ 1) ∧
    (tp + tn + fp + fn = 0 → accuracy_of tp tn fp fn = 0) ∧
    (tp + fp = 0 → precision_of tp fp = 0) ∧
    (tp + fn = 0 → recall_of tp fn = 0) ∧
    (precision_of tp fp + recall_of tp fn = 0 → f1_of tp fp fn = 0) ∧
    (tn + fp = 0 → specificity_of tn fp = 0) := by
  refine ⟨accuracy_of_bounds tp tn fp fn, precision_of_bounds tp fp,
    recall_of_bounds tp fn, f1_of_bounds tp fp fn,
    specificity_of_bounds tn fp, ?_, ?_, ?_, ?_, ?_⟩
  · intro h
    simp [accuracy_of, h]
  · intro h
    simp [precision_of, h]
  · intro h
    simp [recall_of, h]
  · intro h
    simp [f1_of, h]
  · intro h
    simp [specificity_of, h]

/-- Counterexample to C6 as stated: with (tp, tn, fp, fn) = (0, 0, 1, 0)
the accuracy is 0 although its denominator tp+tn+fp+fn = 1 is nonzero, so
a score being 0 does not imply its denominator is 0. -/
theorem C6_counterexample_zero_score :
    accuracy_of 0 0 1 0 = 0 ∧ (0 + 0 + 1 + 0 : Nat) ≠ 0 := by
  constructor
  · norm_num [accuracy_of]
  · decide

/-- Witness for C6 at (0, 0, 0, 0), where every denominator is 0. -/
theorem C6_scores_bounded_witness :
    (0 ≤ accuracy_of 0 0 0 0 ∧ accuracy_of 0 0 0 0 ≤ 1) ∧
    (0 ≤ precision_of 0 0 ∧ precision_of 0 0 ≤ 1) ∧
    (0 ≤ recall_of 0 0 ∧ recall_of 0 0 ≤ 1) ∧
    (0 ≤ f1_of 0 0 0 ∧ f1_of 0 0 0 ≤ 1) ∧
    (0 ≤ specificity_of 0 0 ∧ specificity_of 0 0 ≤ 1) ∧
    accuracy_of 0 0 0 0 = 0 ∧ precision_of 0 0 = 0 ∧ recall_of 0 0 = 0 ∧
    f1_of 0 0 0 = 0 ∧ specificity_of 0 0 = 0 := by
  obtain ⟨b1, b2, b3, b4, b5, i1, i2, i3, i4, i5⟩ := C6_scores_bounded 0 0 0 0
  exact ⟨b1, b2, b3, b4, b5, i1 rfl, i2 rfl, i3 rfl,
    i4 (by norm_num [precision_of, recall_of]), i5 rfl⟩

/-- Counterexample to C2 as stated: on a run with one error-marked record
and one correctly predicted `emails` record, the reporting pass divides
by the full record count 2, yielding 1/2, while the four-count formula
over the emails counts (tp=1, tn=fp=fn=0) yields 1. -/
theorem C2_counterexample_error_denominator :
    print_report_accuracy (calculate_metrics [rErr, rEmail]).total
        (calculate_metrics [rErr, rEmail]).emails ≠
      accuracy_of (calculate_metrics [rErr, rEmail]).emails.tp
        (calculate_metrics [rErr, rEmail]).emails.tn
        (calculate_metrics [rErr, rEmail]).emails.fp
        (calculate_metrics [rErr, rEmail]).emails.fn := by
  have hm : (calculate_metrics [rErr, rEmail]).emails = ⟨1, 0, 0, 0⟩ := by
    decide
  have ht : (calculate_metrics [rErr, rEmail]).total = 2 := by decide
  rw [hm, ht]
  norm_num [print_report_accuracy, accuracy_of]

/-- C2 (amended): the reporting pass computes accuracy as (tp+tn)/total
with `total` the full record count including error-marked records (0 when
the run is empty); when no record carries an error marker this equals
(tp+tn)/(tp+tn+fp+fn) for every category, because the four counts then
sum to the total. -/
theorem C2_report_accuracy_no_errors (l : List EvalRecord)
    (h : ∀ r ∈ l, r.actual.error = none) :
    print_report_accuracy (calculate_metrics l).total
        (calculate_metrics l).safe_accuracy =
      accuracy_of (calculate_metrics l).safe_accuracy.tp
        (calculate_metrics l).safe_accuracy.tn
        (calculate_metrics l).safe_accuracy.fp
        (calculate_metrics l).safe_accuracy.fn ∧
    print_report_accuracy (calculate_metrics l).total
        (calculate_metrics l).emails =
      accuracy_of (calculate_metrics l).emails.tp
        (calculate_metrics l).emails.tn (calculate_metrics l).emails.fp
        (calculate_metrics l).emails.fn ∧
    print_report_accuracy (calculate_metrics l).total
        (calculate_metrics l).address =
      accuracy_of (calculate_metrics l).address.tp
        (calculate_metrics l).address.tn (calculate_metrics l).address.fp
        (calculate_metrics l).address.fn ∧
    print_report_accuracy (calculate_metrics l).total
        (calculate_metrics l).phoneNumbers =
      accuracy_of (calculate_metrics l).phoneNumbers.tp
        (calculate_metrics l).phoneNumbers.tn
        (calculate_metrics l).phoneNumbers.fp
        (calculate_metrics l).phoneNumbers.fn ∧
    print_report_accuracy (calculate_metrics l).total
        (calculate_metrics l).licensePlates =
      accuracy_of (calculate_metrics l).licensePlates.tp
        (calculate_metrics l).licensePlates.tn
        (calculate_metrics l).licensePlates.fp
        (calculate_metrics l).licensePlates.fn := by
  have hf : l.filter nonErr = l :=
    List.filter_eq_self.mpr (fun r hr => by simp [nonErr, h r hr])
  have htot : (calculate_metrics l).total = l.length := by
    rw [calculate_metrics_eq]
  have hsum : ∀ f : EvalRecord → Bool × Bool,
      (ar_counts (mainPairs f l)).sum = l.length := by
    intro f
    rw [ar_counts_sum]
    simp [mainPairs, hf]
  refine ⟨?_, ?_, ?_, ?_, ?_⟩ <;>
    · apply report_accuracy_eq_accuracy_of
      rw [htot, calculate_metrics_eq]
      exact hsum _

/-- Witness for C2 on the error-free run `[rEmail]`. -/
theorem C2_report_accuracy_no_errors_witness :
    (∀ r ∈ [rEmail], r.actual.error = none) ∧
    (print_report_accuracy (calculate_metrics [rEmail]).total
        (calculate_metrics [rEmail]).safe_accuracy =
      accuracy_of (calculate_metrics [rEmail]).safe_accuracy.tp
        (calculate_metrics [rEmail]).safe_accuracy.tn
        (calculate_metrics [rEmail]).safe_accuracy.fp
        (calculate_metrics [rEmail]).safe_accuracy.fn ∧
    print_report_accuracy (calculate_metrics [rEmail]).total
        (calculate_metrics [rEmail]).emails =
      accuracy_of (calculate_metrics [rEmail]).emails.tp
        (calculate_metrics [rEmail]).emails.tn
        (calculate_metrics [rEmail]).emails.fp
        (calculate_metrics [rEmail]).emails.fn ∧
    print_report_accuracy (calculate_metrics [rEmail]).total
        (calculate_metrics [rEmail]).address =
      accuracy_of (calculate_metrics [rEmail]).address.tp
        (calculate_metrics [rEmail]).address.tn
        (calculate_metrics [rEmail]).address.fp
        (calculate_metrics [rEmail]).address.fn ∧
    print_report_accuracy (calculate_metrics [rEmail]).total
        (calculate_metrics [rEmail]).phoneNumbers =
      accuracy_of (calculate_metrics [rEmail]).phoneNumbers.tp
        (calculate_metrics [rEmail]).phoneNumbers.tn
        (calculate_metrics [rEmail]).phoneNumbers.fp
        (calculate_metrics [rEmail]).phoneNumbers.fn ∧
    print_report_accuracy (calculate_metrics [rEmail]).total
        (calculate_metrics [rEmail]).licensePlates =
      accuracy_of (calculate_metrics [rEmail]).licensePlates.tp
        (calculate_metrics [rEmail]).licensePlates.tn
        (calculate_metrics [rEmail]).licensePlates.fp
        (calculate_metrics [rEmail]).licensePlates.fn) :=
  ⟨by decide, C2_report_accuracy_no_errors [rEmail] (by decide)⟩

/-- Counterexample to C1 as stated: for the single error-free record `r0`
(expected all `False`, predicted all `False`), `main.py` computes safe
counts tp=1, tn=0 (inverted polarity), while the Chart Generator's
reconstruction from the persisted CSV computes tp=0, tn=1 (standard
polarity on the same booleans) — the four integers differ. -/
theorem C1_counterexample_safe_counts :
    (create_confusion_matrices (save_results_csv [r0])).safeUnsafe.counts ≠
      (calculate_metrics [r0]).safe_accuracy := by
  decide

/-- C1 (amended): for any record set with no error markers and fully
populated actual PII fields, reconstructing the counts from the persisted
CSV reproduces `main.py`'s counts exactly for the four PII categories,
and reproduces the safe counts with tp/tn and fp/fn transposed (the
reconstruction reads the safe column with standard polarity, `main.py`
accumulates it with inverted polarity). -/
theorem C1_csv_roundtrip (l : List EvalRecord)
    (h : ∀ r ∈ l, r.actual.error = none ∧ r.actual.emails.isSome = true ∧
      r.actual.address.isSome = true ∧ r.actual.phoneNumbers.isSome = true ∧
      r.actual.licensePlates.isSome = true) :
    (create_confusion_matrices (save_results_csv l)).emails.counts =
        (calculate_metrics l).emails ∧
    (create_confusion_matrices (save_results_csv l)).address.counts =
        (calculate_metrics l).address ∧
    (create_confusion_matrices (save_results_csv l)).phoneNumbers.counts =
        (calculate_metrics l).phoneNumbers ∧
    (create_confusion_matrices (save_results_csv l)).licensePlates.counts =
        (calculate_metrics l).licensePlates ∧
    (create_confusion_matrices (save_results_csv l)).safeUnsafe.counts =
        Counts.swap (calculate_metrics l).safe_accuracy := by
  have hf : l.filter nonErr = l :=
    List.filter_eq_self.mpr (fun r hr => by simp [nonErr, (h r hr).1])
  have hclean : (l.map csvRowOf).filter (fun row => row.error == "") =
      l.map csvRowOf := by
    apply List.filter_eq_self.mpr
    intro row hrow
    obtain ⟨r, hr, rfl⟩ := List.mem_map.mp hrow
    simp [csvRowOf, (h r hr).1]
  have hsafe : (l.map csvRowOf).map
      (fun row => (row.expectedSafe, csvCellBool row.actualSafe)) =
      l.map safePair := by
    rw [List.map_map]
    apply List.map_congr_left
    intro r hr
    simp [Function.comp, csvRowOf, csvCellBool, safePair, (h r hr).1]
  have hemails : (l.map csvRowOf).map
      (fun row => (row.expectedEmails, csvCellBool row.actualEmails)) =
      l.map emailsPair := by
    rw [List.map_map]
    apply List.map_congr_left
    intro r hr
    obtain ⟨b, hb⟩ := Option.isSome_iff_exists.mp (h r hr).2.1
    simp [Function.comp, csvRowOf, csvCellBool, emailsPair, (h r hr).1, hb]
  have haddress : (l.map csvRowOf).map
      (fun row => (row.expectedAddress, csvCellBool row.actualAddress)) =
      l.map addressPair := by
    rw [List.map_map]
    apply List.map_congr_left
    intro r hr
    obtain ⟨b, hb⟩ := Option.isSome_iff_exists.mp (h r hr).2.2.1
    simp [Function.comp, csvRowOf, csvCellBool, addressPair, (h r hr).1, hb]
  have hphone : (l.map csvRowOf).map
      (fun row =>
        (row.expectedPhoneNumbers, csvCellBool row.actualPhoneNumbers)) =
      l.map phonePair := by
    rw [List.map_map]
    apply List.map_congr_left
    intro r hr
    obtain ⟨b, hb⟩ := Option.isSome_iff_exists.mp (h r hr).2.2.2.1
    simp [Function.comp, csvRowOf, csvCellBool, phonePair, (h r hr).1, hb]
  have hplates : (l.map csvRowOf).map
      (fun row =>
        (row.expectedLicensePlates, csvCellBool row.actualLicensePlates)) =
      l.map platesPair := by
    rw [List.map_map]
    apply List.map_congr_left
    intro r hr
    obtain ⟨b, hb⟩ := Option.isSome_iff_exists.mp (h r hr).2.2.2.2
    simp [Function.comp, csvRowOf, csvCellBool, platesPair, (h r hr).1, hb]
  have hneg : mainPairs (fun r => negPair (safePair r)) l =
      (l.map safePair).map negPair := by
    rw [List.map_map]
    simp [mainPairs, hf, Function.comp]
  rw [calculate_metrics_eq]
  unfold create_confusion_matrices save_results_csv
  simp only [ar_calculate_metrics_counts, hclean, hsafe, hemails, haddress,
    hphone, hplates, hneg, ar_counts_map_neg, Counts.swap_swap]
  simp [mainPairs, hf]

/-- Witness for C1 on the error-free, fully populated run `[r0]`. -/
theorem C1_csv_roundtrip_witness :
    (∀ r ∈ [r0], r.actual.error = none ∧ r.actual.emails.isSome = true ∧
      r.actual.address.isSome = true ∧ r.actual.phoneNumbers.isSome = true ∧
      r.actual.licensePlates.isSome = true) ∧
    ((create_confusion_matrices (save_results_csv [r0])).emails.counts =
        (calculate_metrics [r0]).emails ∧
    (create_confusion_matrices (save_results_csv [r0])).address.counts =
        (calculate_metrics [r0]).address ∧
    (create_confusion_matrices (save_results_csv [r0])).phoneNumbers.counts =
        (calculate_metrics [r0]).phoneNumbers ∧
    (create_confusion_matrices (save_results_csv [r0])).licensePlates.counts =
        (calculate_metrics [r0]).licensePlates ∧
    (create_confusion_matrices (save_results_csv [r0])).safeUnsafe.counts =
        Counts.swap (calculate_metrics [r0]).safe_accuracy) :=
  ⟨by decide, C1_csv_roundtrip [r0] (by decide)⟩
